import Mathlib

/-!
Verification of the barcode registration/caching/placement pipeline of the
`barcode` package (gofpdfcontrib).  The Go source is shallowly embedded:
float64 coordinates and sizes become `ℚ` (every concrete value the theorems
evaluate at is exactly representable in binary floating point, and the
operations involved are exact there), the package-global `barcodes` map
becomes an association list with Go-map assignment semantics, and the calls
the pipeline issues to the host PDF document are recorded in explicit logs.
External collaborators (github.com/boombuler/barcode encoders and `Scale`,
`image/jpeg`'s `Encode`, and the gofpdf host document) are not part of this
repository; the pipeline is verified for every behaviour of the encoders,
scaler and JPEG encoder, which enter as an explicit environment.
-/

set_option autoImplicit false

namespace GofpdfBarcode

/-- An abstract barcode symbol as produced by a boombuler/barcode encoder:
`kind` is `Metadata().CodeKind`, `content` is `Content()`, and `data` stands
for the opaque module matrix / pixel payload of the symbol. -/
structure BSymbol where
  kind : String
  content : String
  data : List Nat
deriving DecidableEq

/-- The package-global `var barcodes map[string]barcode.Barcode`, embedded as
an association list.  Assignment `m[k] = v` replaces the entry for `k` in
place (or appends it), exactly the observable semantics of a Go map write. -/
abbrev Registry := List (String × BSymbol)

/-- Go map assignment `m[k] = v`: replace the entry for `k`, else append. -/
def mapInsert : Registry → String → BSymbol → Registry
  | [], k, v => [(k, v)]
  | (k', v') :: t, k, v =>
    if k' = k then (k, v) :: t else (k', v') :: mapInsert t k v

/-- Go map read `v, ok := m[k]`. -/
def lookupMap : Registry → String → Option BSymbol
  | [], _ => none
  | (k', v') :: t, k => if k' = k then some v' else lookupMap t k

/-- Number of entries of the registry holding key `k`. -/
def countKey : Registry → String → Nat
  | [], _ => 0
  | (k', _) :: t, k => (if k' = k then 1 else 0) + countKey t k

/-- One `Image(name, x, y, w, h, flow, tp, link, linkStr)` draw call issued to
the host document. -/
structure DrawCall where
  name : String
  x : ℚ
  y : ℚ
  w : ℚ
  h : ℚ
  flow : Bool
  tp : String
  link : Int
  linkStr : String
deriving DecidableEq

/-- One `RegisterImageReader(imgName, tp, r)` call issued to the host
document; `buf` is the byte stream handed over through the reader. -/
structure RegisterCall where
  name : String
  tp : String
  buf : List Nat
deriving DecidableEq

/-- Modelled from the spec: the host PDF document behind the `barcodePdf`
interface (gofpdf, an external collaborator whose code is not in this
repository), holding exactly the capability set of spec §6: a conversion
ratio for `GetConversionRatio`, the table of registered images backing
`GetImageInfo`, the single-slot last-write-wins `SetError` channel, and —
so that interaction properties are statable — logs of the
`RegisterImageReader` and `Image` calls received. -/
structure PdfHost where
  conversionRatio : ℚ
  images : List String
  errSlot : Option String
  registerLog : List RegisterCall
  drawLog : List DrawCall
deriving DecidableEq

/-- `GetImageInfo(name)`: some info exactly when `name` was registered. -/
def PdfHost.getImageInfo (h : PdfHost) (name : String) : Option Unit :=
  if name ∈ h.images then some () else none

/-- `SetError(err)`: the single-slot last-write-wins error channel. -/
def PdfHost.setError (h : PdfHost) (e : String) : PdfHost :=
  { h with errSlot := some e }

/-- `RegisterImageReader(name, tp, r)`: registers the bytes under `name`. -/
def PdfHost.registerImageReader (h : PdfHost) (name tp : String)
    (buf : List Nat) : PdfHost :=
  { h with
    images := name :: h.images
    registerLog := h.registerLog ++ [⟨name, tp, buf⟩] }

/-- `Image(name, x, y, w, h, flow, tp, link, linkStr)`: draws a registered
image. -/
def PdfHost.image (h : PdfHost) (name : String) (x y w hh : ℚ) (flow : Bool)
    (tp : String) (link : Int) (linkStr : String) : PdfHost :=
  { h with drawLog := h.drawLog ++ [⟨name, x, y, w, hh, flow, tp, link, linkStr⟩] }

/-- The external collaborators the package calls into, none of which are code
of this repository: `barcode.Scale` and `jpeg.Encode`, and the seven
symbology encoders (qr's error-correction level and encoding mode, which Go
passes as small enum values, are embedded as `Nat`).  Each encoder returns
its symbol together with `none` (success) or `some errMessage` (failure). -/
structure Env where
  scale : BSymbol → Int → Int → Except String BSymbol
  jpegEncode : BSymbol → Except String (List Nat)
  codabarEncode : String → BSymbol × Option String
  code128Encode : String → BSymbol × Option String
  code39Encode : String → Bool → Bool → BSymbol × Option String
  datamatrixEncode : String → BSymbol × Option String
  eanEncode : String → BSymbol × Option String
  qrEncode : String → Nat → Nat → BSymbol × Option String
  twooffiveEncode : String → Bool → BSymbol × Option String

/-- The state a package call acts on: the package-global `barcodes` registry
together with the host document. -/
structure State where
  registry : Registry
  host : PdfHost
deriving DecidableEq

/-! ### Go float formatting

`uniqueBarcodeName` formats its coordinates with
`strconv.FormatFloat(x, 'E', -1, 64)` (Go standard library, external to this
repository): sign, shortest mantissa `d` or `d.ddd`, the letter `E`, and a
signed two-digit-minimum exponent.  The embedding below reproduces that
format exactly on every value whose decimal expansion terminates within 17
significant digits (all values any theorem below evaluates it at); beyond
that it truncates where Go would round to the shortest float64 round-trip. -/

/-- Strip trailing decimal zeros, fuelled (structurally recursive so the
kernel can evaluate it): the fuel bounds the number of removed zeros. -/
def stripZerosGo : Nat → Nat → Nat
  | 0, n => n
  | f + 1, n => if n ≠ 0 ∧ n % 10 = 0 then stripZerosGo f (n / 10) else n

/-- Strip trailing decimal zeros: `1500 ↦ 15`. -/
def stripZeros (n : Nat) : Nat :=
  stripZerosGo n n

/-- A natural as decimal digits, padded on the left to two digits. -/
def padExp (n : Nat) : String :=
  if n < 10 then "0" ++ toString n else toString n

/-- `strconv.FormatFloat(q, 'E', -1, 64)` on the embedded rationals. -/
def formatFloatE (q : ℚ) : String :=
  if q = 0 then "0E+00"
  else
    let sign := if q < 0 then "-" else ""
    let n := q.num.natAbs
    let d := q.den
    let k := (((List.range 18).find? fun k => n * 10 ^ k % d == 0).getD 17)
    let digits := n * 10 ^ k / d
    let e : Int := ((toString digits).length : Int) - 1 - (k : Int)
    let s := toString (stripZeros digits)
    let mantissa := s.take 1 ++ (if s.length ≤ 1 then "" else "." ++ s.drop 1)
    let eStr := (if e < 0 then "-" else "+") ++ padExp e.natAbs
    sign ++ mantissa ++ "E" ++ eStr

/-- Go's `int(f)` conversion of a float64: truncation toward zero. -/
def goInt (q : ℚ) : Int :=
  if 0 ≤ q then ⌊q⌋ else ⌈q⌉

/-! ### The source functions (package `barcode`) -/

/-- `uniqueBarcodeName(code, x, y)`. -/
def uniqueBarcodeName (code : String) (x y : ℚ) : String :=
  let xStr := formatFloatE x
  let yStr := formatFloatE y
  "barcode-" ++ code ++ "-" ++ xStr ++ yStr

/-- `barcodeKey(bcode)`: `bcode.Metadata().CodeKind + bcode.Content()`. -/
def barcodeKey (bcode : BSymbol) : String :=
  bcode.kind ++ bcode.content

/-- `Register(bcode)`: writes the entry and returns its key.  (Go lazily
allocates the map when it is empty; the list model needs no allocation.) -/
def Register (reg : Registry) (bcode : BSymbol) : String × Registry :=
  let key := barcodeKey bcode
  (key, mapInsert reg key bcode)

/-- `registerBarcode(pdf, bcode, err)`: on an encoder error, `SetError` on
the host; then register unconditionally and return the key. -/
def registerBarcode (st : State) (bcode : BSymbol) (err : Option String) :
    String × State :=
  let host := match err with
    | some e => st.host.setError e
    | none => st.host
  let r := Register st.registry bcode
  (r.1, { registry := r.2, host := host })

/-- `RegisterCodabar(pdf, code)`. -/
def RegisterCodabar (env : Env) (st : State) (code : String) :
    String × State :=
  let r := env.codabarEncode code
  registerBarcode st r.1 r.2

/-- `RegisterCode128(pdf, code)`. -/
def RegisterCode128 (env : Env) (st : State) (code : String) :
    String × State :=
  let r := env.code128Encode code
  registerBarcode st r.1 r.2

/-- `RegisterCode39(pdf, code, includeChecksum, fullASCIIMode)`. -/
def RegisterCode39 (env : Env) (st : State) (code : String)
    (includeChecksum fullASCIIMode : Bool) : String × State :=
  let r := env.code39Encode code includeChecksum fullASCIIMode
  registerBarcode st r.1 r.2

/-- `RegisterDataMatrix(pdf, code)`. -/
def RegisterDataMatrix (env : Env) (st : State) (code : String) :
    String × State :=
  let r := env.datamatrixEncode code
  registerBarcode st r.1 r.2

/-- `RegisterEAN(pdf, code)`. -/
def RegisterEAN (env : Env) (st : State) (code : String) : String × State :=
  let r := env.eanEncode code
  registerBarcode st r.1 r.2

/-- `RegisterQR(pdf, code, ecl, mode)`. -/
def RegisterQR (env : Env) (st : State) (code : String) (ecl mode : Nat) :
    String × State :=
  let r := env.qrEncode code ecl mode
  registerBarcode st r.1 r.2

/-- `RegisterTwoOfFive(pdf, code, interleaved)`. -/
def RegisterTwoOfFive (env : Env) (st : State) (code : String)
    (interleaved : Bool) : String × State :=
  let r := env.twooffiveEncode code interleaved
  registerBarcode st r.1 r.2

/-- `convertTo96Dpi(pdf, value)`. -/
def convertTo96Dpi (h : PdfHost) (value : ℚ) : ℚ :=
  value * h.conversionRatio / 72 * 96

/-- `registerScaledBarcode(pdf, code, bcode)`: JPEG-encode the scaled symbol
and register the buffer with the host under `code` with format tag "jpg". -/
def registerScaledBarcode (env : Env) (host : PdfHost) (code : String)
    (bcode : BSymbol) : Except String PdfHost :=
  match env.jpegEncode bcode with
  | .error e => .error e
  | .ok buf => .ok (host.registerImageReader code "jpg" buf)

/-- `Barcode(pdf, code, x, y, w, h, flow)`: the placement pipeline. -/
def Barcode (env : Env) (st : State) (code : String) (x y w h : ℚ)
    (flow : Bool) : State :=
  match lookupMap st.registry code with
  | none => { st with host := st.host.setError "Barcode not found" }
  | some unscaled =>
    let bname := uniqueBarcodeName code x y
    match st.host.getImageInfo bname with
    | some _ => { st with host := st.host.image bname x y 0 0 flow "jpg" 0 "" }
    | none =>
      match env.scale unscaled (goInt (convertTo96Dpi st.host w))
          (goInt (convertTo96Dpi st.host h)) with
      | .error e => { st with host := st.host.setError e }
      | .ok bcode =>
        match registerScaledBarcode env st.host bname bcode with
        | .error e => { st with host := st.host.setError e }
        | .ok host2 =>
          { st with host := host2.image bname x y 0 0 flow "jpg" 0 "" }

/-! ### Definitions modelled from the spec's words (for refutation only) -/

/-- Modelled from the spec: spec §6 describes the format tag handed to
`RegisterImageReader` as "a lossless-compressed raster format".  Of the image
format tags the gofpdf host accepts ("jpg", "jpeg", "png", "gif"), PNG and
GIF are lossless raster compression formats; "jpg"/"jpeg" denote JPEG, a
lossy format. -/
def isLosslessRasterFormatTag (tag : String) : Bool :=
  tag == "png" || tag == "gif"

/-- Modelled from the spec: a "canonical fixed-precision decimal string" for
a coordinate, as spec §3's placement-key formula asks for — here sign,
integer part, a point and six fractional digits.  (Any fixed-precision
decimal format disagrees with the source, which uses Go's 'E' scientific
format.) -/
def fixedDecimal (q : ℚ) : String :=
  let sign := if q < 0 then "-" else ""
  let n := q.num.natAbs * 10 ^ 6 / q.den
  let frac := toString (n % 10 ^ 6)
  sign ++ toString (n / 10 ^ 6) ++ "." ++
    String.mk (List.replicate (6 - frac.length) '0') ++ frac

/-- Modelled from the spec: spec §3's placement-key formula
`placementKey = "barcode-" + content + x + y`, with the coordinates as
canonical fixed-precision decimal strings and no other separator. -/
def specPlacementKey (content : String) (x y : ℚ) : String :=
  "barcode-" ++ content ++ fixedDecimal x ++ fixedDecimal y

/-! ### Concrete fixtures used by witnesses and counterexamples -/

/-- A host document in its initial state, conversion ratio 1. -/
def host0 : PdfHost :=
  { conversionRatio := 1, images := [], errSlot := none
    registerLog := [], drawLog := [] }

/-- A Codabar symbol over content "123". -/
def symA : BSymbol := ⟨"Codabar", "123", [1, 2]⟩

/-- A Code 128 symbol over the same content "123". -/
def symB : BSymbol := ⟨"Code 128", "123", [3]⟩

/-- An environment whose scaler and JPEG encoder succeed (the scaler returns
the symbol it was given, the JPEG encoder returns the symbol's payload) and
whose seven symbology encoders all fail, each returning a partial symbol of
its kind together with an error. -/
def envOk : Env :=
  { scale := fun b _ _ => .ok b
    jpegEncode := fun b => .ok b.data
    codabarEncode := fun c => (⟨"Codabar", c, []⟩, some "codabar: bad content")
    code128Encode := fun c => (⟨"Code 128", c, []⟩, some "code128: bad content")
    code39Encode := fun c _ _ => (⟨"Code 39", c, []⟩, some "code39: bad content")
    datamatrixEncode := fun c => (⟨"DataMatrix", c, []⟩, some "datamatrix: bad content")
    eanEncode := fun c => (⟨"EAN", c, []⟩, some "ean: bad content")
    qrEncode := fun c _ _ => (⟨"QR Code", c, []⟩, some "qr: bad content")
    twooffiveEncode := fun c _ => (⟨"2 of 5", c, []⟩, some "twooffive: bad content") }

/-- `envOk` with a failing scaler. -/
def envScaleErr : Env := { envOk with scale := fun _ _ _ => .error "scale: failed" }

/-- `envOk` with a failing JPEG encoder. -/
def envJpegErr : Env := { envOk with jpegEncode := fun _ => .error "jpeg: failed" }

/-- A state holding `symA` and `symB` in the registry, over a fresh host. -/
def stBoth : State :=
  { registry := [(barcodeKey symA, symA), (barcodeKey symB, symB)], host := host0 }

/-! ### Helper lemmas -/

theorem lookupMap_mapInsert_self (m : Registry) (k : String) (v : BSymbol) :
    lookupMap (mapInsert m k v) k = some v := by
  induction m with
  | nil => simp [mapInsert, lookupMap]
  | cons p t ih =>
    obtain ⟨k', v'⟩ := p
    by_cases h : k' = k
    · simp [mapInsert, h, lookupMap]
    · simp [mapInsert, h, lookupMap, ih]

theorem registerBarcode_some (st : State) (b : BSymbol) (e : String) :
    (registerBarcode st b (some e)).1 = barcodeKey b ∧
    (registerBarcode st b (some e)).2.host.errSlot = some e ∧
    lookupMap (registerBarcode st b (some e)).2.registry (barcodeKey b) = some b := by
  refine ⟨rfl, rfl, ?_⟩
  simp [registerBarcode, Register, lookupMap_mapInsert_self]

theorem string_append_cancel_right {a b c : String} (h : a ++ c = b ++ c) :
    a = b := by
  have hd : a.data ++ c.data = b.data ++ c.data := by
    have := congrArg String.data h
    simpa [String.data_append] using this
  cases a; cases b
  exact congrArg String.mk (List.append_cancel_right hd)

theorem string_append_cancel_left {a b c : String} (h : c ++ a = c ++ b) :
    a = b := by
  have hd : c.data ++ a.data = c.data ++ b.data := by
    have := congrArg String.data h
    simpa [String.data_append] using this
  cases a; cases b
  exact congrArg String.mk (List.append_cancel_left hd)

theorem countKey_mapInsert_ne (m : Registry) (k k' : String) (v : BSymbol)
    (h : k' ≠ k) : countKey (mapInsert m k v) k' = countKey m k' := by
  induction m with
  | nil => simp [mapInsert, countKey, Ne.symm h]
  | cons p t ih =>
    obtain ⟨kp, vp⟩ := p
    by_cases hp : kp = k
    · subst hp
      simp [mapInsert, countKey, Ne.symm h]
    · simp [mapInsert, hp, countKey, ih]

theorem countKey_mapInsert_self_le (m : Registry) (k : String) (v : BSymbol)
    (h : countKey m k ≤ 1) : countKey (mapInsert m k v) k ≤ 1 := by
  induction m with
  | nil => simp [mapInsert, countKey]
  | cons p t ih =>
    obtain ⟨kp, vp⟩ := p
    by_cases hp : kp = k
    · subst hp
      simpa [mapInsert, countKey] using h
    · rw [countKey, if_neg hp, Nat.zero_add] at h
      simpa [mapInsert, hp, countKey] using ih h

theorem countKey_foldRegister_le :
    ∀ (ops : List BSymbol) (reg : Registry),
      (∀ k, countKey reg k ≤ 1) →
      ∀ k, countKey (ops.foldl (fun r b => (Register r b).2) reg) k ≤ 1 := by
  intro ops
  induction ops with
  | nil => intro reg h k; exact h k
  | cons b t ih =>
    intro reg h k
    refine ih (mapInsert reg (barcodeKey b) b) (fun k' => ?_) k
    by_cases hk : k' = barcodeKey b
    · subst hk
      exact countKey_mapInsert_self_le _ _ _ (h _)
    · rw [countKey_mapInsert_ne _ _ _ _ hk]
      exact h k'

/-! ### The claims -/

/-- Claim C1, counterexample: the claim asserts every failed
registration-by-encoding still returns a *non-empty* key; but when the
encoder's failure result is the zero-value symbol (empty kind and content),
`registerBarcode` — which builds the key as kind ++ content — returns the
empty key. -/
theorem registerBarcode_failure_empty_key_cex :
    (registerBarcode ⟨[], host0⟩ ⟨"", "", []⟩ (some "invalid content")).1 = "" := by
  decide

/-- Claim C1 (amended): for each of the seven registration-by-encoding
calls, when the underlying encoder fails with error `e` alongside a
(partial/zero-value) symbol `b`, the call still returns the key
`kind ++ content` of `b` — which is empty exactly when `b`'s kind and
content are both empty — records `e` in the host's error slot via
`SetError`, and a lookup of that key in the registry returns `b`; the call
never fails to produce a key. -/
theorem registerByEncoding_failure_registers_and_sets_error :
    ∀ (env : Env) (st : State) (code : String) (b : BSymbol) (e : String),
      (env.codabarEncode code = (b, some e) →
        (RegisterCodabar env st code).1 = barcodeKey b ∧
        (RegisterCodabar env st code).2.host.errSlot = some e ∧
        lookupMap (RegisterCodabar env st code).2.registry (barcodeKey b) = some b) ∧
      (env.code128Encode code = (b, some e) →
        (RegisterCode128 env st code).1 = barcodeKey b ∧
        (RegisterCode128 env st code).2.host.errSlot = some e ∧
        lookupMap (RegisterCode128 env st code).2.registry (barcodeKey b) = some b) ∧
      (∀ cs fa, env.code39Encode code cs fa = (b, some e) →
        (RegisterCode39 env st code cs fa).1 = barcodeKey b ∧
        (RegisterCode39 env st code cs fa).2.host.errSlot = some e ∧
        lookupMap (RegisterCode39 env st code cs fa).2.registry (barcodeKey b) = some b) ∧
      (env.datamatrixEncode code = (b, some e) →
        (RegisterDataMatrix env st code).1 = barcodeKey b ∧
        (RegisterDataMatrix env st code).2.host.errSlot = some e ∧
        lookupMap (RegisterDataMatrix env st code).2.registry (barcodeKey b) = some b) ∧
      (env.eanEncode code = (b, some e) →
        (RegisterEAN env st code).1 = barcodeKey b ∧
        (RegisterEAN env st code).2.host.errSlot = some e ∧
        lookupMap (RegisterEAN env st code).2.registry (barcodeKey b) = some b) ∧
      (∀ ecl mode, env.qrEncode code ecl mode = (b, some e) →
        (RegisterQR env st code ecl mode).1 = barcodeKey b ∧
        (RegisterQR env st code ecl mode).2.host.errSlot = some e ∧
        lookupMap (RegisterQR env st code ecl mode).2.registry (barcodeKey b) = some b) ∧
      (∀ il, env.twooffiveEncode code il = (b, some e) →
        (RegisterTwoOfFive env st code il).1 = barcodeKey b ∧
        (RegisterTwoOfFive env st code il).2.host.errSlot = some e ∧
        lookupMap (RegisterTwoOfFive env st code il).2.registry (barcodeKey b) = some b) := by
  intro env st code b e
  refine ⟨fun h => ?_, fun h => ?_, fun cs fa h => ?_, fun h => ?_, fun h => ?_,
    fun ecl mode h => ?_, fun il h => ?_⟩
  · simpa [RegisterCodabar, h] using registerBarcode_some st b e
  · simpa [RegisterCode128, h] using registerBarcode_some st b e
  · simpa [RegisterCode39, h] using registerBarcode_some st b e
  · simpa [RegisterDataMatrix, h] using registerBarcode_some st b e
  · simpa [RegisterEAN, h] using registerBarcode_some st b e
  · simpa [RegisterQR, h] using registerBarcode_some st b e
  · simpa [RegisterTwoOfFive, h] using registerBarcode_some st b e

/-- Claim C1, witness: the amended claim at concrete failing encoders. -/
theorem registerByEncoding_failure_witness :
    (RegisterCodabar envOk ⟨[], host0⟩ "x").2.host.errSlot = some "codabar: bad content" ∧
    (RegisterCode128 envOk ⟨[], host0⟩ "x").2.host.errSlot = some "code128: bad content" ∧
    (RegisterCode39 envOk ⟨[], host0⟩ "x" true false).2.host.errSlot = some "code39: bad content" ∧
    (RegisterDataMatrix envOk ⟨[], host0⟩ "x").2.host.errSlot = some "datamatrix: bad content" ∧
    (RegisterEAN envOk ⟨[], host0⟩ "x").2.host.errSlot = some "ean: bad content" ∧
    (RegisterQR envOk ⟨[], host0⟩ "x" 1 0).2.host.errSlot = some "qr: bad content" ∧
    (RegisterTwoOfFive envOk ⟨[], host0⟩ "x" true).2.host.errSlot = some "twooffive: bad content" := by
  have h := fun b e =>
    registerByEncoding_failure_registers_and_sets_error envOk ⟨[], host0⟩ "x" b e
  exact ⟨((h ⟨"Codabar", "x", []⟩ "codabar: bad content").1 rfl).2.1,
    ((h ⟨"Code 128", "x", []⟩ "code128: bad content").2.1 rfl).2.1,
    ((h ⟨"Code 39", "x", []⟩ "code39: bad content").2.2.1 true false rfl).2.1,
    ((h ⟨"DataMatrix", "x", []⟩ "datamatrix: bad content").2.2.2.1 rfl).2.1,
    ((h ⟨"EAN", "x", []⟩ "ean: bad content").2.2.2.2.1 rfl).2.1,
    ((h ⟨"QR Code", "x", []⟩ "qr: bad content").2.2.2.2.2.1 1 0 rfl).2.1,
    ((h ⟨"2 of 5", "x", []⟩ "twooffive: bad content").2.2.2.2.2.2 true rfl).2.1⟩

/-- Claim C3, counterexample: the placement key is not
`"barcode-" + content + x + y` with fixed-precision decimal coordinates —
the code inserts a `"-"` separator after the code string and formats the
coordinates in Go's `'E'` scientific notation; moreover the string the
pipeline passes is the registration key (kind ++ content), not the bare
content. -/
theorem placement_key_formula_cex :
    uniqueBarcodeName (barcodeKey symA) 1 2 ≠ specPlacementKey "123" 1 2 ∧
    uniqueBarcodeName "c" 1 2 ≠ "barcode-" ++ "c" ++ formatFloatE 1 ++ formatFloatE 2 := by
  decide

/-- Claim C3 (amended): the placement key the pipeline derives equals
`"barcode-" + code + "-" + xStr + yStr`, where `code` is the registration
key handed to `Barcode` (symbology kind ++ content) and `xStr`, `yStr` are
the coordinates formatted in Go's shortest scientific `'E'` notation
(`strconv.FormatFloat(·, 'E', -1, 64)`), not fixed-precision decimals;
concretely, the key for code "Codabar123" at (1, 2) is
"barcode-Codabar123-1E+002E+00". -/
theorem uniqueBarcodeName_formula :
    (∀ (code : String) (x y : ℚ),
      uniqueBarcodeName code x y =
        "barcode-" ++ code ++ "-" ++ formatFloatE x ++ formatFloatE y) ∧
    uniqueBarcodeName "Codabar123" 1 2 = "barcode-Codabar123-1E+002E+00" :=
  ⟨fun _ _ _ => rfl, by decide⟩

/-- Claim C7: the unit converter is the pure arithmetic function
`value * conversionRatio / 72 * 96`; with ratio 1 it sends 72 to exactly 96,
and with ratio 2 it sends 36 to exactly 96. -/
theorem convertTo96Dpi_spec :
    (∀ (h : PdfHost) (v : ℚ),
      convertTo96Dpi h v = v * h.conversionRatio / 72 * 96) ∧
    (∀ h : PdfHost, h.conversionRatio = 1 → convertTo96Dpi h 72 = 96) ∧
    (∀ h : PdfHost, h.conversionRatio = 2 → convertTo96Dpi h 36 = 96) := by
  refine ⟨fun h v => rfl, fun h hr => ?_, fun h hr => ?_⟩ <;>
    · rw [convertTo96Dpi, hr]; norm_num

/-- Claim C7, witness: the two exactness cases at concrete hosts. -/
theorem convertTo96Dpi_spec_witness :
    convertTo96Dpi host0 72 = 96 ∧
    convertTo96Dpi { host0 with conversionRatio := 2 } 36 = 96 :=
  ⟨convertTo96Dpi_spec.2.1 host0 rfl, convertTo96Dpi_spec.2.2 _ rfl⟩

/-- Claim C2, counterexample: the format tag the miss path hands to
`RegisterImageReader` and to the draw call is "jpg" — JPEG, which is not a
lossless raster compression format. -/
theorem raster_format_not_lossless_cex :
    (Barcode envOk stBoth "Codabar123" 5 7 10 10 false).host.registerLog.map
        RegisterCall.tp = ["jpg"] ∧
    (Barcode envOk stBoth "Codabar123" 5 7 10 10 false).host.drawLog.map
        DrawCall.tp = ["jpg"] ∧
    isLosslessRasterFormatTag "jpg" = false := by
  decide

/-- Claim C2 (amended): on a placement-cache miss the pipeline rasterizes the
scaled symbol through `jpeg.Encode` into a JPEG-compressed (lossy, not
lossless) buffer, registers that buffer with the host under the placement
key with format tag "jpg", and passes the same "jpg" tag to the draw call. -/
theorem barcode_miss_registers_jpeg_raster :
    ∀ (env : Env) (st : State) (code : String) (x y w h : ℚ) (flow : Bool)
      (u sb : BSymbol) (buf : List Nat),
      lookupMap st.registry code = some u →
      st.host.getImageInfo (uniqueBarcodeName code x y) = none →
      env.scale u (goInt (convertTo96Dpi st.host w))
        (goInt (convertTo96Dpi st.host h)) = .ok sb →
      env.jpegEncode sb = .ok buf →
      (Barcode env st code x y w h flow).host.registerLog =
        st.host.registerLog ++ [⟨uniqueBarcodeName code x y, "jpg", buf⟩] ∧
      (Barcode env st code x y w h flow).host.drawLog =
        st.host.drawLog ++
          [⟨uniqueBarcodeName code x y, x, y, 0, 0, flow, "jpg", 0, ""⟩] := by
  intro env st code x y w h flow u sb buf hlk hinfo hscale hjpeg
  refine ⟨?_, ?_⟩ <;>
    simp [Barcode, registerScaledBarcode, hlk, hinfo, hscale, hjpeg,
      PdfHost.registerImageReader, PdfHost.image]

/-- Claim C2, witness: a concrete miss-path placement registering the JPEG
buffer under the placement key. -/
theorem barcode_miss_registers_jpeg_raster_witness :
    (Barcode envOk stBoth "Codabar123" 1 2 10 20 true).host.registerLog =
      [⟨"barcode-Codabar123-1E+002E+00", "jpg", [1, 2]⟩] ∧
    (Barcode envOk stBoth "Codabar123" 1 2 10 20 true).host.drawLog =
      [⟨"barcode-Codabar123-1E+002E+00", 1, 2, 0, 0, true, "jpg", 0, ""⟩] := by
  have h := barcode_miss_registers_jpeg_raster envOk stBoth "Codabar123" 1 2
    10 20 true symA symA [1, 2] (by decide) (by decide) rfl rfl
  simpa [stBoth, host0, uniqueBarcodeName] using h

/-- Claim C4, counterexample: two symbologies of the same content "123",
both registered, placed at the same (5, 7): the two placements do *not*
derive the same placement key — the draw calls name different images. -/
theorem same_content_two_kinds_collision_cex :
    (Barcode envOk stBoth "Codabar123" 5 7 10 10 false).host.drawLog.map
        DrawCall.name ≠
      (Barcode envOk stBoth "Code 128123" 5 7 10 10 false).host.drawLog.map
        DrawCall.name := by
  decide

/-- Claim C4 (amended): for every content string and two distinct symbology
kinds, the placements of the two encodings at the same (x, y) derive
*distinct* placement keys: the placement key is built from the registration
key, which includes the symbology kind, so the two registrations do not
collide (the key does still omit width and height). -/
theorem distinct_kinds_distinct_placement_keys :
    ∀ (k1 k2 c : String) (d1 d2 : List Nat) (x y : ℚ),
      k1 ≠ k2 →
      uniqueBarcodeName (barcodeKey ⟨k1, c, d1⟩) x y ≠
        uniqueBarcodeName (barcodeKey ⟨k2, c, d2⟩) x y := by
  intro k1 k2 c d1 d2 x y hk h
  apply hk
  have h1 : "barcode-" ++ (k1 ++ c) ++ "-" ++ formatFloatE x ++ formatFloatE y
      = "barcode-" ++ (k2 ++ c) ++ "-" ++ formatFloatE x ++ formatFloatE y := h
  have h2 := string_append_cancel_right (string_append_cancel_right
    (string_append_cancel_right h1))
  exact string_append_cancel_right (string_append_cancel_left h2)

/-- Claim C4, witness: two concrete distinct kinds over the same content. -/
theorem distinct_kinds_distinct_placement_keys_witness :
    uniqueBarcodeName (barcodeKey ⟨"QR Code", "77", []⟩) 1 2 ≠
      uniqueBarcodeName (barcodeKey ⟨"EAN", "77", []⟩) 1 2 :=
  distinct_kinds_distinct_placement_keys "QR Code" "EAN" "77" [] [] 1 2
    (by decide)

/-- Claim C5: two successive successful placements of the same registered
key at the same (x, y) — with arbitrary, possibly different, requested
sizes and flow flags — issue exactly one `RegisterImageReader` call (on the
first placement) and two `Image` draw calls, the second reusing the raster
the first registered (both draws name the same placement key). -/
theorem barcode_repeat_placement_single_registration :
    ∀ (env : Env) (st : State) (code : String) (x y w1 h1 w2 h2 : ℚ)
      (flow1 flow2 : Bool) (u sb : BSymbol) (buf : List Nat),
      lookupMap st.registry code = some u →
      st.host.getImageInfo (uniqueBarcodeName code x y) = none →
      env.scale u (goInt (convertTo96Dpi st.host w1))
        (goInt (convertTo96Dpi st.host h1)) = .ok sb →
      env.jpegEncode sb = .ok buf →
      (Barcode env (Barcode env st code x y w1 h1 flow1) code x y w2 h2
          flow2).host.registerLog =
        st.host.registerLog ++ [⟨uniqueBarcodeName code x y, "jpg", buf⟩] ∧
      (Barcode env (Barcode env st code x y w1 h1 flow1) code x y w2 h2
          flow2).host.drawLog =
        st.host.drawLog ++
          [⟨uniqueBarcodeName code x y, x, y, 0, 0, flow1, "jpg", 0, ""⟩,
           ⟨uniqueBarcodeName code x y, x, y, 0, 0, flow2, "jpg", 0, ""⟩] := by
  intro env st code x y w1 h1 w2 h2 flow1 flow2 u sb buf hlk hinfo hscale hjpeg
  have h1 : Barcode env st code x y w1 h1 flow1 =
      { st with host :=
        (st.host.registerImageReader (uniqueBarcodeName code x y) "jpg"
          buf).image (uniqueBarcodeName code x y) x y 0 0 flow1 "jpg" 0 "" } := by
    simp only [Barcode, registerScaledBarcode, hlk, hinfo, hscale, hjpeg]
  rw [h1]
  simp only [Barcode, hlk, PdfHost.getImageInfo, PdfHost.registerImageReader,
    PdfHost.image, List.mem_cons, List.cons_append, List.nil_append]
  simp

/-- Claim C5, witness: a concrete pair of placements of the same key at the
same position with different sizes and flow flags. -/
theorem barcode_repeat_placement_single_registration_witness :
    (Barcode envOk (Barcode envOk stBoth "Code 128123" 3 4 10 20 false)
        "Code 128123" 3 4 55 66 true).host.registerLog =
      [⟨"barcode-Code 128123-3E+004E+00", "jpg", [3]⟩] ∧
    (Barcode envOk (Barcode envOk stBoth "Code 128123" 3 4 10 20 false)
        "Code 128123" 3 4 55 66 true).host.drawLog =
      [⟨"barcode-Code 128123-3E+004E+00", 3, 4, 0, 0, false, "jpg", 0, ""⟩,
       ⟨"barcode-Code 128123-3E+004E+00", 3, 4, 0, 0, true, "jpg", 0, ""⟩] := by
  have h := barcode_repeat_placement_single_registration envOk stBoth
    "Code 128123" 3 4 10 20 55 66 false true symB symB [3] (by decide)
    (by decide) rfl rfl
  simpa [stBoth, host0, uniqueBarcodeName] using h

/-- Claim C6: every failing placement —
key never registered, failing scale step, or failing
rasterization/registration — reports its error through the host's
`SetError` slot and returns without issuing any `Image` draw call; the
resulting state is exactly the input state with the error recorded, so in
particular the not-found case registers no image either. -/
theorem barcode_failure_paths :
    ∀ (env : Env) (st : State) (code : String) (x y w h : ℚ) (flow : Bool),
      (lookupMap st.registry code = none →
        Barcode env st code x y w h flow =
          { st with host := st.host.setError "Barcode not found" }) ∧
      (∀ u e, lookupMap st.registry code = some u →
        st.host.getImageInfo (uniqueBarcodeName code x y) = none →
        env.scale u (goInt (convertTo96Dpi st.host w))
          (goInt (convertTo96Dpi st.host h)) = .error e →
        Barcode env st code x y w h flow =
          { st with host := st.host.setError e }) ∧
      (∀ u sb e, lookupMap st.registry code = some u →
        st.host.getImageInfo (uniqueBarcodeName code x y) = none →
        env.scale u (goInt (convertTo96Dpi st.host w))
          (goInt (convertTo96Dpi st.host h)) = .ok sb →
        env.jpegEncode sb = .error e →
        Barcode env st code x y w h flow =
          { st with host := st.host.setError e }) := by
  intro env st code x y w h flow
  refine ⟨fun hlk => ?_, fun u e hlk hinfo hscale => ?_,
    fun u sb e hlk hinfo hscale hjpeg => ?_⟩
  · simp only [Barcode, hlk]
  · simp only [Barcode, hlk, hinfo, hscale]
  · simp only [Barcode, registerScaledBarcode, hlk, hinfo, hscale, hjpeg]

/-- Claim C6, witness: the three failure paths at concrete inputs — an
unregistered key, a failing scaler, and a failing JPEG encoder. -/
theorem barcode_failure_paths_witness :
    Barcode envOk stBoth "nope" 1 2 3 4 false =
      { stBoth with host := host0.setError "Barcode not found" } ∧
    Barcode envScaleErr stBoth "Codabar123" 1 2 3 4 false =
      { stBoth with host := host0.setError "scale: failed" } ∧
    Barcode envJpegErr stBoth "Codabar123" 1 2 3 4 false =
      { stBoth with host := host0.setError "jpeg: failed" } :=
  ⟨(barcode_failure_paths envOk stBoth "nope" 1 2 3 4 false).1 (by decide),
   (barcode_failure_paths envScaleErr stBoth "Codabar123" 1 2 3 4 false).2.1
     symA "scale: failed" (by decide) (by decide) rfl,
   (barcode_failure_paths envJpegErr stBoth "Codabar123" 1 2 3 4 false).2.2
     symA symA "jpeg: failed" (by decide) (by decide) rfl rfl⟩

/-- Claim C8: registration is idempotent — registering the same symbol
twice yields the same key both times (the key is `kind ++ content`, so it
only depends on the (kind, content) pair), a lookup after either
registration returns the identical symbol, and after any sequence of
registrations starting from the empty registry at most one entry exists per
key. -/
theorem register_idempotent_and_unique :
    (∀ (reg : Registry) (b : BSymbol),
      (Register reg b).1 = (Register (Register reg b).2 b).1 ∧
      (Register reg b).1 = barcodeKey b ∧
      lookupMap (Register reg b).2 (Register reg b).1 = some b ∧
      lookupMap (Register (Register reg b).2 b).2 (Register reg b).1 = some b) ∧
    (∀ (ops : List BSymbol) (k : String),
      countKey (ops.foldl (fun r b => (Register r b).2) []) k ≤ 1) := by
  constructor
  · intro reg b
    exact ⟨rfl, rfl, lookupMap_mapInsert_self _ _ _, lookupMap_mapInsert_self _ _ _⟩
  · intro ops k
    exact countKey_foldRegister_le ops [] (fun _ => Nat.zero_le _) k

/-- Claim C9: a placement call never mutates the registry — whatever the
key, coordinates, dimensions, flow flag and host state, `Barcode` returns
the registry it was given; the registry changes only through `Register`
(which the `RegisterXxx` functions reach via `registerBarcode`). -/
theorem barcode_preserves_registry :
    (∀ (env : Env) (st : State) (code : String) (x y w h : ℚ) (flow : Bool),
      (Barcode env st code x y w h flow).registry = st.registry) ∧
    (∀ (st : State) (b : BSymbol) (e : Option String),
      (registerBarcode st b e).2.registry = (Register st.registry b).2) := by
  constructor
  · intro env st code x y w h flow
    simp only [Barcode]
    repeat' split
    all_goals rfl
  · intro st b e
    cases e <;> rfl

/-- Claim C10: on a placement-cache miss the only use `Barcode` makes of the
scaler is at the integer truncations (toward zero) of `convertTo96Dpi w` and
`convertTo96Dpi h` — two environments agreeing there (and on the JPEG
encoder) produce identical results; `goInt` is exactly float-to-int
truncation toward zero (floor on nonnegatives, ceiling on negatives),
losing less than one device pixel per axis; and it truncates rather than
rounds to nearest: a requested size of 2.13 units at ratio 1 converts to
2.84 device pixels and is truncated to 2 although 3 is nearer. -/
theorem barcode_scale_dims_truncated :
    (∀ (env env2 : Env) (st : State) (code : String) (x y w h : ℚ)
      (flow : Bool) (u : BSymbol),
      lookupMap st.registry code = some u →
      st.host.getImageInfo (uniqueBarcodeName code x y) = none →
      env2.jpegEncode = env.jpegEncode →
      env2.scale u (goInt (convertTo96Dpi st.host w))
          (goInt (convertTo96Dpi st.host h)) =
        env.scale u (goInt (convertTo96Dpi st.host w))
          (goInt (convertTo96Dpi st.host h)) →
      Barcode env2 st code x y w h flow = Barcode env st code x y w h flow) ∧
    (∀ q : ℚ, 0 ≤ q →
      goInt q = ⌊q⌋ ∧ (goInt q : ℚ) ≤ q ∧ q - 1 < (goInt q : ℚ)) ∧
    (∀ q : ℚ, q < 0 →
      goInt q = ⌈q⌉ ∧ q ≤ (goInt q : ℚ) ∧ (goInt q : ℚ) < q + 1) ∧
    (goInt (convertTo96Dpi host0 (213 / 100)) = 2 ∧
      3 - convertTo96Dpi host0 (213 / 100) < convertTo96Dpi host0 (213 / 100) - 2) := by
  refine ⟨fun env env2 st code x y w h flow u hlk hinfo hjp hsc => ?_,
    fun q hq => ?_, fun q hq => ?_, ?_, ?_⟩
  · simp only [Barcode, registerScaledBarcode, hlk, hinfo, hsc, hjp]
  · rw [goInt, if_pos hq]
    exact ⟨rfl, Int.floor_le q, Int.sub_one_lt_floor q⟩
  · rw [goInt, if_neg (not_le.mpr hq)]
    exact ⟨rfl, Int.le_ceil q, Int.ceil_lt_add_one q⟩
  · have hc : convertTo96Dpi host0 (213 / 100) = 71 / 25 := by
      rw [convertTo96Dpi]; norm_num [host0]
    rw [hc, goInt, if_pos (by norm_num), Int.floor_eq_iff]
    norm_num
  · have hc : convertTo96Dpi host0 (213 / 100) = 71 / 25 := by
      rw [convertTo96Dpi]; norm_num [host0]
    rw [hc]; norm_num

/-- Claim C10, witness: the environment-agreement conjunct at a concrete
miss-path placement, and the truncation characterizations at ±40/3. -/
theorem barcode_scale_dims_truncated_witness :
    Barcode envOk stBoth "Codabar123" 1 2 10 20 false =
      Barcode envOk stBoth "Codabar123" 1 2 10 20 false ∧
    goInt (40 / 3 : ℚ) = ⌊(40 / 3 : ℚ)⌋ ∧
    goInt (-(40 / 3) : ℚ) = ⌈(-(40 / 3) : ℚ)⌉ :=
  ⟨barcode_scale_dims_truncated.1 envOk envOk stBoth "Codabar123" 1 2 10 20
      false symA (by decide) (by decide) rfl rfl,
   (barcode_scale_dims_truncated.2.1 (40 / 3) (by norm_num)).1,
   (barcode_scale_dims_truncated.2.2.1 (-(40 / 3)) (by norm_num)).1⟩

end GofpdfBarcode
